import Mathlib

/-!
Verification of the Unbrowser Python client (`src/clients/python/unbrowser/`)
against its natural-language specification.

The development shallowly embeds the request executor
(`UnbrowserClient._request`, `client.py` lines 116-195), client construction
(`UnbrowserClient.__init__`, lines 87-114), and the request/response mapping
layer (`types.py`).  JSON values are modelled by an inductive `Json` type;
Python exceptions by the sum type `PyExn`; the outcome of one physical network
attempt by `AttemptOutcome`.  The retry loop is modelled as a fuel-indexed
recursion that mirrors Python's `for attempt in range(1, attempts + 1)`,
instrumented to record the number of attempts made and the list of backoff
delays slept (`time.sleep(2**attempt)`).
-/

namespace Unbrowser

/-- JSON values, as produced by `response.json()` and consumed by the mapping
layer.  Python's `None` and JSON `null` are identified (as the `json` module
does). -/
inductive Json where
  | null : Json
  | bool : Bool → Json
  | num : Int → Json
  | str : String → Json
  | arr : List Json → Json
  | obj : List (String × Json) → Json

/-- Python truthiness of a JSON value (`bool(x)` for the corresponding Python
object: `None`, `bool`, `int`, `str`, `list`, `dict`). -/
def Json.truthy : Json → Bool
  | .null => false
  | .bool b => b
  | .num n => n != 0
  | .str s => s != ""
  | .arr xs => !xs.isEmpty
  | .obj fs => !fs.isEmpty

/-- First binding of key `k` in an association list (Python `dict` lookup;
the client never builds duplicate keys). -/
def lookupField (fs : List (String × Json)) (k : String) : Option Json :=
  match fs with
  | [] => none
  | (k', v) :: rest => if k' = k then some v else lookupField rest k

/-- Python exceptions relevant to the client: the `requests` transport
exceptions, the `UnbrowserError` hierarchy of `client.py`, and the builtin
exceptions (`ValueError`, `AttributeError`) that can escape `_request`
uncaught.  The generic `UnbrowserError` carries `code` and `message` exactly
as constructed — for envelope errors these are arbitrary JSON values, since
Python performs no type check on `error["code"]`/`error["message"]`. -/
inductive PyExn where
  | requestsTimeout : String → PyExn
  | requestsConnectionError : String → PyExn
  | unbrowser : Json → Json → PyExn
  | authentication : String → PyExn
  | rateLimit : String → Option Int → PyExn
  | validation : String → PyExn
  | valueError : String → PyExn
  | attributeError : String → PyExn
  | keyError : String → PyExn
  | typeError : String → PyExn

/-- Models Python's `int(s)` on a `str`: surrounding whitespace and an
optional single sign are accepted before a non-empty run of digits; anything
else raises `ValueError`.  (Underscore digit separators are not modelled; no
claim involves them.) -/
def pyIntParse (s : String) : Option Int :=
  let t := ((s.data.dropWhile Char.isWhitespace).reverse.dropWhile Char.isWhitespace).reverse
  let signed : Int × List Char :=
    match t with
    | '+' :: rest => (1, rest)
    | '-' :: rest => (-1, rest)
    | _ => (1, t)
  if !signed.2.isEmpty && signed.2.all Char.isDigit then
    some (signed.1 * Int.ofNat (signed.2.foldl (fun acc c => acc * 10 + (c.toNat - 48)) 0))
  else
    none

/-- The observable outcome of one physical HTTP attempt, the environment of
one iteration of the `_request` loop: the `requests` call either raises
`Timeout`, raises `ConnectionError`, or returns a response with a status
code, an optional `Retry-After` header, and a JSON body (`response.json()`
is assumed to succeed; no claim concerns non-JSON bodies).  The HTTP method
dispatch (GET/POST/DELETE) is abstracted into the outcome. -/
inductive AttemptOutcome where
  | timeout : String → AttemptOutcome
  | connError : String → AttemptOutcome
  | httpResponse : Nat → Option String → Json → AttemptOutcome

/-- The `try:` body of one `_request` attempt (`client.py` lines 128-168):
status-code classification (429 → `RateLimitError` with the parsed
`Retry-After` hint, 401 → `AuthenticationError`, 403 → `UnbrowserError`
with code `FORBIDDEN`), then envelope decoding: a non-truthy `success`
raises `UnbrowserError(code, message)` with defaults `UNKNOWN_ERROR` /
`Unknown error`; otherwise `result.get("data")` is returned (Python `None`,
i.e. `Json.null`, when absent).  Note `int(retry_after)` raises an uncaught
`ValueError` on a non-integer header value, and the header is dropped when
falsy (absent or empty string). -/
def tryBody (o : AttemptOutcome) : Except PyExn Json :=
  match o with
  | .timeout m => .error (.requestsTimeout m)
  | .connError m => .error (.requestsConnectionError m)
  | .httpResponse status retryAfter body =>
    if status = 429 then
      match retryAfter with
      | some s =>
        if s ≠ "" then
          match pyIntParse s with
          | some n => .error (.rateLimit "Daily request limit exceeded" (some n))
          | none => .error (.valueError s)
        else
          .error (.rateLimit "Daily request limit exceeded" none)
      | none => .error (.rateLimit "Daily request limit exceeded" none)
    else if status = 401 then
      .error (.authentication "Invalid or missing API key")
    else if status = 403 then
      .error (.unbrowser (.str "FORBIDDEN")
        (.str "API key does not have access to this resource"))
    else
      match body with
      | .obj fs =>
        let success := (lookupField fs "success").getD (.bool false)
        if !success.truthy then
          let errObj := (lookupField fs "error").getD (.obj [])
          match errObj with
          | .obj efs =>
            .error (.unbrowser ((lookupField efs "code").getD (.str "UNKNOWN_ERROR"))
              ((lookupField efs "message").getD (.str "Unknown error")))
          | _ => .error (.attributeError "get")
        else
          .ok ((lookupField fs "data").getD .null)
      | _ => .error (.attributeError "get")

/-- What the `except` clauses decide for a raised exception: raise to the
caller now, or record it as `last_error` and — only when `attempt <
attempts` — sleep and retry, raising the `onExhaust` error otherwise. -/
inductive AttemptStep where
  | success : Json → AttemptStep
  | raiseNow : PyExn → AttemptStep
  | retryOr : PyExn → PyExn → AttemptStep

/-- The membership test `e.code in ["INVALID_REQUEST", "INVALID_URL",
"FORBIDDEN"]` (`client.py` line 185): Python `==` of an arbitrary value
against those string literals. -/
def isNoRetryCode : Json → Bool
  | .str s => s == "INVALID_REQUEST" || s == "INVALID_URL" || s == "FORBIDDEN"
  | _ => false

/-- The `except` clauses of `_request` (`client.py` lines 170-191):
`requests.Timeout` is retryable and raised as a `TIMEOUT`-classified
`UnbrowserError` on exhaustion; `requests.ConnectionError` is raised as a
`TIMEOUT`-classified error immediately (the `isinstance(e, Timeout)` guard
fails, so control falls through to the `raise`); `AuthenticationError`,
`RateLimitError` and `ValidationError` are re-raised; a generic
`UnbrowserError` is raised immediately when its code is in the do-not-retry
set and retried otherwise; `ValueError` / `AttributeError` match no clause
and propagate. -/
def handleExn (e : PyExn) : AttemptStep :=
  match e with
  | .requestsTimeout m => .retryOr e (.unbrowser (.str "TIMEOUT") (.str m))
  | .requestsConnectionError m => .raiseNow (.unbrowser (.str "TIMEOUT") (.str m))
  | .authentication _ => .raiseNow e
  | .rateLimit _ _ => .raiseNow e
  | .validation _ => .raiseNow e
  | .unbrowser code _ =>
    if isNoRetryCode code then .raiseNow e else .retryOr e e
  | .valueError _ => .raiseNow e
  | .attributeError _ => .raiseNow e
  | .keyError _ => .raiseNow e
  | .typeError _ => .raiseNow e

/-- One full iteration of the `_request` loop on the outcome of its physical
attempt. -/
def attemptStep (o : AttemptOutcome) : AttemptStep :=
  match tryBody o with
  | .ok d => .success d
  | .error e => handleExn e

/-- Observable result of one `_request` call: the returned data or raised
exception, the number of physical attempts made, the backoff delays slept
(in order), and whether control left the `for` loop normally and reached
line 193 (`exitedLoop`; instrumentation for the defensive-fallback claim). -/
structure RunResult where
  result : Except PyExn Json
  attemptsMade : Nat
  sleeps : List Nat
  exitedLoop : Bool

/-- The `for attempt in range(1, attempts + 1)` loop of `_request`
(`client.py` lines 127-195), with the post-loop `raise last_error` /
`UNKNOWN_ERROR` fallback.  `env k` is the outcome of physical attempt `k`
(1-based); `fuel` counts the iterations left, so the loop is entered with
`fuel = attempts` and `attempt = 1`. -/
def requestLoop (env : Nat → AttemptOutcome) (attempts : Nat) :
    Nat → Nat → Option PyExn → List Nat → RunResult
  | 0, attempt, lastError, sleeps =>
    { result := .error (lastError.getD (.unbrowser (.str "UNKNOWN_ERROR") (.str "Request failed")))
      attemptsMade := attempt - 1
      sleeps := sleeps
      exitedLoop := true }
  | fuel + 1, attempt, lastError, sleeps =>
    match attemptStep (env attempt) with
    | .success d =>
      { result := .ok d, attemptsMade := attempt, sleeps := sleeps, exitedLoop := false }
    | .raiseNow e =>
      { result := .error e, attemptsMade := attempt, sleeps := sleeps, exitedLoop := false }
    | .retryOr store onExhaust =>
      if attempt < attempts then
        requestLoop env attempts fuel (attempt + 1) (some store) (sleeps ++ [2 ^ attempt])
      else
        { result := .error onExhaust, attemptsMade := attempt, sleeps := sleeps,
          exitedLoop := false }

/-- `attempts = self.max_retries if self.retry else 1` (`client.py`
line 125). -/
def attemptBudget (retry : Bool) (max_retries : Nat) : Nat :=
  if retry then max_retries else 1

/-- One `_request` call under attempt environment `env`. -/
def runRequest (retry : Bool) (max_retries : Nat) (env : Nat → AttemptOutcome) : RunResult :=
  let attempts := attemptBudget retry max_retries
  requestLoop env attempts attempts 1 none []

/-! ### Client construction (`UnbrowserClient.__init__`, `client.py` 87-114) -/

/-- `DEFAULT_BASE_URL` (`client.py` line 83). -/
def DEFAULT_BASE_URL : String := "https://api.unbrowser.ai"

/-- `DEFAULT_TIMEOUT` (`client.py` line 84). -/
def DEFAULT_TIMEOUT : Nat := 60

/-- `DEFAULT_MAX_RETRIES` (`client.py` line 85). -/
def DEFAULT_MAX_RETRIES : Nat := 3

/-- Python `s.startswith(p)`. -/
def pyStartsWith (s p : String) : Bool :=
  p.data.isPrefixOf s.data

/-- Python `s.rstrip("/")`: remove all trailing `/` characters. -/
def rstripSlash (s : String) : String :=
  String.mk ((s.data.reverse.dropWhile (fun c => c = '/')).reverse)

/-- Python `b or dflt` on an `Optional[str]` value: the default replaces
every falsy left operand, i.e. both `None` and the empty string. -/
def pyOrDefault (b : Option String) (dflt : String) : String :=
  match b with
  | some s => if s = "" then dflt else s
  | none => dflt

/-- The client state established by a successful `__init__` (`client.py`
lines 100-104).  The `requests.Session` handle and its headers carry no
logic relevant to the claims and are not modelled. -/
structure UnbrowserClient where
  api_key : String
  base_url : String
  timeout : Nat
  retry : Bool
  max_retries : Nat

/-- `UnbrowserClient.__init__` (`client.py` lines 87-114): an empty key or a
key not starting with `ub_` raises `ValidationError` before anything else
happens (in particular before any network activity); otherwise the fully
constructed client is returned.  The stored base URL is
`(base_url or DEFAULT_BASE_URL).rstrip("/")` — Python's `or` substitutes
the default for a `None` *or empty* `base_url`.  Python defaults are
`base_url=None`, `timeout=60`, `retry=True`, `max_retries=3`; all are
passed explicitly here. -/
def UnbrowserClient.init (api_key : String) (base_url : Option String)
    (timeout : Nat) (retry : Bool) (max_retries : Nat) :
    Except PyExn UnbrowserClient :=
  if api_key = "" then
    .error (.validation "api_key is required")
  else if !pyStartsWith api_key "ub_" then
    .error (.validation "Invalid API key format. Must start with 'ub_'")
  else
    .ok { api_key := api_key
          base_url := rstripSlash (pyOrDefault base_url DEFAULT_BASE_URL)
          timeout := timeout
          retry := retry
          max_retries := max_retries }

/-- `UnbrowserClient.get_usage` (`client.py` lines 342-349): returns the
`_request` result directly, without further mapping. -/
def UnbrowserClient.get_usage (c : UnbrowserClient) (env : Nat → AttemptOutcome) : RunResult :=
  runRequest c.retry c.max_retries env

/-- `UnbrowserClient.list_workflows` (`client.py` lines 483-507): the query
string is built from the filters and the `_request` result is returned
directly; the path building has no effect on the executor's behaviour and
is abstracted into `env`. -/
def UnbrowserClient.list_workflows (c : UnbrowserClient) (env : Nat → AttemptOutcome) : RunResult :=
  runRequest c.retry c.max_retries env

/-! ### Basic executor lemmas -/

/-- When at least one attempt is budgeted and the first attempt's exception
is raised to the caller outright, `_request` makes exactly that one attempt
and sleeps never. -/
theorem runRequest_raiseNow (retry : Bool) (mr : Nat) (env : Nat → AttemptOutcome)
    (e : PyExn) (h1 : 1 ≤ attemptBudget retry mr)
    (h2 : attemptStep (env 1) = .raiseNow e) :
    runRequest retry mr env =
      { result := .error e, attemptsMade := 1, sleeps := [], exitedLoop := false } := by
  obtain ⟨n, hn⟩ : ∃ n, attemptBudget retry mr = n + 1 :=
    ⟨attemptBudget retry mr - 1, (Nat.succ_pred_eq_of_pos h1).symm⟩
  simp only [runRequest, hn, requestLoop, h2]

/-- When at least one attempt is budgeted and the first attempt succeeds,
`_request` returns its data after exactly one attempt. -/
theorem runRequest_success1 (retry : Bool) (mr : Nat) (env : Nat → AttemptOutcome)
    (d : Json) (h1 : 1 ≤ attemptBudget retry mr)
    (h2 : attemptStep (env 1) = .success d) :
    runRequest retry mr env =
      { result := .ok d, attemptsMade := 1, sleeps := [], exitedLoop := false } := by
  obtain ⟨n, hn⟩ : ∃ n, attemptBudget retry mr = n + 1 :=
    ⟨attemptBudget retry mr - 1, (Nat.succ_pred_eq_of_pos h1).symm⟩
  simp only [runRequest, hn, requestLoop, h2]

/-- When at least two attempts are budgeted, the first attempt fails
retryably and the second succeeds, `_request` sleeps `2^1` once and returns
the second attempt's data after two attempts. -/
theorem runRequest_retry_then_success (retry : Bool) (mr : Nat)
    (env : Nat → AttemptOutcome) (st ex : PyExn) (d : Json)
    (h1 : 2 ≤ attemptBudget retry mr)
    (h2 : attemptStep (env 1) = .retryOr st ex)
    (h3 : attemptStep (env 2) = .success d) :
    runRequest retry mr env =
      { result := .ok d, attemptsMade := 2, sleeps := [2], exitedLoop := false } := by
  obtain ⟨n, hn⟩ : ∃ n, attemptBudget retry mr = n + 2 := by
    refine ⟨attemptBudget retry mr - 2, ?_⟩
    omega
  simp only [runRequest, hn, requestLoop, h2, h3]
  have hlt : 1 < n + 2 := by omega
  simp [hlt, requestLoop, h3]

/-- Loop invariant: started with positive fuel equal to the number of
attempts left (`fuel + attempt = attempts + 1`), the `for` loop always
terminates from within an iteration (`exitedLoop = false` — control never
reaches the post-loop lines 193-195), makes between `attempt` and `attempts`
attempts in total, and the delays slept are exactly `2^k` for each failed
non-final attempt `k`. -/
theorem requestLoop_inv (env : Nat → AttemptOutcome) (attempts : Nat) :
    ∀ (fuel attempt : Nat) (le : Option PyExn) (s0 : List Nat),
    1 ≤ fuel → fuel + attempt = attempts + 1 →
    (requestLoop env attempts fuel attempt le s0).exitedLoop = false ∧
    attempt ≤ (requestLoop env attempts fuel attempt le s0).attemptsMade ∧
    (requestLoop env attempts fuel attempt le s0).attemptsMade ≤ attempts ∧
    (requestLoop env attempts fuel attempt le s0).sleeps =
      s0 ++ (List.range' attempt
        ((requestLoop env attempts fuel attempt le s0).attemptsMade - attempt)).map (2 ^ ·) := by
  intro fuel
  induction fuel with
  | zero => intro attempt le s0 hf _; omega
  | succ f ih =>
    intro attempt le s0 _ hinv
    have hle : attempt ≤ attempts := by omega
    simp only [requestLoop]
    match hstep : attemptStep (env attempt) with
    | .success d => simp [hle]
    | .raiseNow e => simp [hle]
    | .retryOr store onExhaust =>
      by_cases hlt : attempt < attempts
      · simp only [if_pos hlt]
        have hf1 : 1 ≤ f := by omega
        have hinv1 : f + (attempt + 1) = attempts + 1 := by omega
        obtain ⟨hexit, hge, hbound, hsleeps⟩ :=
          ih (attempt + 1) (some store) (s0 ++ [2 ^ attempt]) hf1 hinv1
        refine ⟨hexit, by omega, hbound, ?_⟩
        rw [hsleeps]
        have hcount : (requestLoop env attempts f (attempt + 1) (some store)
            (s0 ++ [2 ^ attempt])).attemptsMade - attempt =
            ((requestLoop env attempts f (attempt + 1) (some store)
              (s0 ++ [2 ^ attempt])).attemptsMade - (attempt + 1)) + 1 := by omega
        rw [hcount, List.range'_succ, List.map_cons, List.append_assoc]
        rfl
      · simp [if_neg hlt, hle]

/-- Exhaustion: when every budgeted attempt fails retryably (with stored
error `stf k` and exhaustion error `exf k` for attempt `k`), the loop makes
all `attempts` attempts, sleeps `2^1, …, 2^(attempts-1)`, and raises the
final attempt's exhaustion error from within the loop. -/
theorem requestLoop_all_retry (env : Nat → AttemptOutcome) (attempts : Nat)
    (stf exf : Nat → PyExn) :
    ∀ (fuel attempt : Nat) (le : Option PyExn) (s0 : List Nat),
    1 ≤ fuel → fuel + attempt = attempts + 1 →
    (∀ k, attempt ≤ k → k ≤ attempts → attemptStep (env k) = .retryOr (stf k) (exf k)) →
    requestLoop env attempts fuel attempt le s0 =
      { result := .error (exf attempts)
        attemptsMade := attempts
        sleeps := s0 ++ (List.range' attempt (attempts - attempt)).map (2 ^ ·)
        exitedLoop := false } := by
  intro fuel
  induction fuel with
  | zero => intro attempt le s0 hf _; omega
  | succ f ih =>
    intro attempt le s0 _ hinv hall
    have hle : attempt ≤ attempts := by omega
    have hstep := hall attempt (Nat.le_refl _) hle
    simp only [requestLoop, hstep]
    by_cases hlt : attempt < attempts
    · simp only [if_pos hlt]
      have hf1 : 1 ≤ f := by omega
      have hinv1 : f + (attempt + 1) = attempts + 1 := by omega
      rw [ih (attempt + 1) (some (stf attempt)) (s0 ++ [2 ^ attempt]) hf1 hinv1
        (fun k hk1 hk2 => hall k (by omega) hk2)]
      have hcount : attempts - attempt = (attempts - (attempt + 1)) + 1 := by omega
      rw [hcount, List.range'_succ]
      simp
    · have heq : attempt = attempts := by omega
      simp [if_neg hlt, heq]

/-- The budget bound with no positivity hypothesis: `_request` never makes
more attempts than `attempts = max_retries if retry else 1`. -/
theorem requestLoop_attempts_le (env : Nat → AttemptOutcome) (attempts : Nat) :
    ∀ (fuel attempt : Nat) (le : Option PyExn) (s0 : List Nat),
    (requestLoop env attempts fuel attempt le s0).attemptsMade ≤ attempt - 1 + fuel := by
  intro fuel
  induction fuel with
  | zero => intro attempt le s0; simp [requestLoop]
  | succ f ih =>
    intro attempt le s0
    simp only [requestLoop]
    match attemptStep (env attempt) with
    | .success d => simp; omega
    | .raiseNow e => simp; omega
    | .retryOr store onExhaust =>
      by_cases hlt : attempt < attempts
      · simp only [if_pos hlt]
        have := ih (attempt + 1) (some store) (s0 ++ [2 ^ attempt])
        omega
      · simp only [if_neg hlt]; omega

/-- Envelope decoding, success case: a response with a non-special status
and a truthy `success` flag returns `result.get("data")` (Python `None`
when absent). -/
theorem tryBody_envelope_success (st : Nat) (hdr : Option String)
    (fs : List (String × Json))
    (h429 : st ≠ 429) (h401 : st ≠ 401) (h403 : st ≠ 403)
    (hsucc : ((lookupField fs "success").getD (.bool false)).truthy = true) :
    tryBody (.httpResponse st hdr (.obj fs)) = .ok ((lookupField fs "data").getD .null) := by
  simp [tryBody, h429, h401, h403, hsucc]

/-- Envelope decoding, failure case: a response with a non-special status
and a non-truthy `success` flag raises `UnbrowserError` with the
server-supplied `code` and `message`. -/
theorem tryBody_envelope_failure (st : Nat) (hdr : Option String)
    (fs efs : List (String × Json)) (c m : String)
    (h429 : st ≠ 429) (h401 : st ≠ 401) (h403 : st ≠ 403)
    (hsucc : ((lookupField fs "success").getD (.bool false)).truthy = false)
    (herr : lookupField fs "error" = some (.obj efs))
    (hcode : lookupField efs "code" = some (.str c))
    (hmsg : lookupField efs "message" = some (.str m)) :
    tryBody (.httpResponse st hdr (.obj fs)) = .error (.unbrowser (.str c) (.str m)) := by
  simp [tryBody, h429, h401, h403, hsucc, herr, hcode, hmsg]

/-! ### Claim C1 (corrected) -/

/-- A transient connection failure on attempt 1, with a successful response
available from attempt 2 on. -/
def claim1CexEnv : Nat → AttemptOutcome := fun k =>
  if k = 1 then .connError "connection refused"
  else .httpResponse 200 none (.obj [("success", .bool true), ("data", .str "ok")])

/-- C1 counterexample: the claim predicts that a transient connection
failure followed by a success on the next attempt yields the success
result after a retry.  In fact `_request` (retries enabled, budget 3)
raises the `TIMEOUT`-classified error after exactly one attempt, with no
backoff sleep, and never returns the success data waiting at attempt 2:
the `isinstance(e, requests.Timeout)` guard on line 173 excludes
`ConnectionError` from the retry path. -/
theorem claim1_counterexample :
    runRequest true 3 claim1CexEnv =
      { result := .error (.unbrowser (.str "TIMEOUT") (.str "connection refused"))
        attemptsMade := 1, sleeps := [], exitedLoop := false } ∧
    (runRequest true 3 claim1CexEnv).result ≠ .ok (.str "ok") := by
  refine ⟨rfl, ?_⟩
  intro h
  rw [show (runRequest true 3 claim1CexEnv).result =
    .error (.unbrowser (.str "TIMEOUT") (.str "connection refused")) from rfl] at h
  exact Except.noConfusion h

/-- C1 (amended): a connection failure is raised immediately as a
`TIMEOUT`-classified error after exactly one attempt and is never retried;
it is the *timeout* failure that is retried, and a transient timeout
followed by a success on the next attempt yields the success result with
two attempts (≤ the configured maximum) and one backoff sleep of `2^1`. -/
theorem claim1_conn_failure_raised_immediately
    (retry : Bool) (mr : Nat) (env : Nat → AttemptOutcome) (m : String) (d : Json)
    (h1 : 1 ≤ attemptBudget retry mr) :
    (env 1 = .connError m →
      runRequest retry mr env =
        { result := .error (.unbrowser (.str "TIMEOUT") (.str m))
          attemptsMade := 1, sleeps := [], exitedLoop := false }) ∧
    (2 ≤ attemptBudget retry mr → env 1 = .timeout m → tryBody (env 2) = .ok d →
      runRequest retry mr env =
        { result := .ok d, attemptsMade := 2, sleeps := [2], exitedLoop := false }) := by
  constructor
  · intro henv
    exact runRequest_raiseNow retry mr env _ h1 (by rw [attemptStep, henv]; rfl)
  · intro h2 henv hok
    refine runRequest_retry_then_success retry mr env (.requestsTimeout m)
      (.unbrowser (.str "TIMEOUT") (.str m)) d h2 ?_ ?_
    · rw [attemptStep, henv]; rfl
    · rw [attemptStep, hok]

/-- Environment for the first half of the C1 witness: connection failure on
attempt 1. -/
def claim1EnvA : Nat → AttemptOutcome := fun _ => .connError "refused"

/-- Environment for the second half of the C1 witness: timeout on attempt 1,
success on attempt 2. -/
def claim1EnvB : Nat → AttemptOutcome := fun k =>
  if k = 1 then .timeout "slow"
  else .httpResponse 200 none (.obj [("success", .bool true), ("data", .str "ok")])

/-- Witness for C1 at concrete inputs. -/
theorem claim1_witness :
    runRequest true 3 claim1EnvA =
      { result := .error (.unbrowser (.str "TIMEOUT") (.str "refused"))
        attemptsMade := 1, sleeps := [], exitedLoop := false } ∧
    runRequest true 3 claim1EnvB =
      { result := .ok (.str "ok"), attemptsMade := 2, sleeps := [2], exitedLoop := false } :=
  ⟨(claim1_conn_failure_raised_immediately true 3 claim1EnvA "refused" .null (by decide)).1 rfl,
   (claim1_conn_failure_raised_immediately true 3 claim1EnvB "slow" (.str "ok")
      (by decide)).2 (by decide) rfl rfl⟩

/-! ### Claim C2 (confirmed) -/

/-- C2: a 429 response makes `_request` raise `RateLimitError` after exactly
one attempt regardless of the retry budget (no internal retry, no backoff
sleep); the `retry_after` hint is the `Retry-After` header parsed by
`int()` when the header is present (and parseable), and `None` when the
header is absent. -/
theorem claim2_rate_limited (retry : Bool) (mr : Nat) (env : Nat → AttemptOutcome)
    (hdr : Option String) (body : Json)
    (h1 : 1 ≤ attemptBudget retry mr)
    (henv : env 1 = .httpResponse 429 hdr body) :
    (hdr = none →
      runRequest retry mr env =
        { result := .error (.rateLimit "Daily request limit exceeded" none)
          attemptsMade := 1, sleeps := [], exitedLoop := false }) ∧
    (∀ s n, hdr = some s → pyIntParse s = some n →
      runRequest retry mr env =
        { result := .error (.rateLimit "Daily request limit exceeded" (some n))
          attemptsMade := 1, sleeps := [], exitedLoop := false }) := by
  constructor
  · intro hnone
    subst hnone
    exact runRequest_raiseNow retry mr env _ h1 (by rw [attemptStep, henv]; rfl)
  · intro s n hs hparse
    subst hs
    refine runRequest_raiseNow retry mr env _ h1 ?_
    have hsne : s ≠ "" := by
      intro he
      subst he
      rw [show pyIntParse "" = none from rfl] at hparse
      exact Option.noConfusion hparse
    rw [attemptStep, henv]
    simp [tryBody, hsne, hparse, handleExn]

/-- Environment for the C2 witness, header present. -/
def claim2EnvA : Nat → AttemptOutcome := fun _ => .httpResponse 429 (some "120") (.obj [])

/-- Environment for the C2 witness, header absent. -/
def claim2EnvB : Nat → AttemptOutcome := fun _ => .httpResponse 429 none (.obj [])

/-- Witness for C2 at concrete inputs. -/
theorem claim2_witness :
    runRequest true 3 claim2EnvA =
      { result := .error (.rateLimit "Daily request limit exceeded" (some 120))
        attemptsMade := 1, sleeps := [], exitedLoop := false } ∧
    runRequest false 3 claim2EnvB =
      { result := .error (.rateLimit "Daily request limit exceeded" none)
        attemptsMade := 1, sleeps := [], exitedLoop := false } :=
  ⟨(claim2_rate_limited true 3 claim2EnvA (some "120") (.obj []) (by decide) rfl).2
      "120" 120 rfl rfl,
   (claim2_rate_limited false 3 claim2EnvB none (.obj []) (by decide) rfl).1 rfl⟩

/-! ### Claim C5 (corrected) -/

/-- A 429 response whose `Retry-After` header is the non-integer string
`"soon"`. -/
def claim5CexEnv : Nat → AttemptOutcome := fun _ => .httpResponse 429 (some "soon") (.obj [])

/-- C5 counterexample: the claim predicts that a non-integer `Retry-After`
value is silently dropped and the rate-limit failure raised with no hint.
In fact `int("soon")` raises a `ValueError` that no `except` clause
catches, so the caller sees an uncaught `ValueError`, not a
`RateLimitError`. -/
theorem claim5_counterexample :
    runRequest true 3 claim5CexEnv =
      { result := .error (.valueError "soon")
        attemptsMade := 1, sleeps := [], exitedLoop := false } ∧
    (runRequest true 3 claim5CexEnv).result ≠
      .error (.rateLimit "Daily request limit exceeded" none) := by
  refine ⟨rfl, ?_⟩
  intro h
  rw [show (runRequest true 3 claim5CexEnv).result = .error (.valueError "soon") from rfl] at h
  injection h with h'
  exact PyExn.noConfusion h'

/-- C5 (amended): on a 429 response, a *non-empty* non-integer
`Retry-After` value causes an uncaught `ValueError` to propagate to the
caller (the parse error surfaces; the hint is not silently dropped); only
an *empty* header value is silently dropped, yielding the rate-limit
failure with no hint.  Either way exactly one attempt is made. -/
theorem claim5_nonint_retry_after (retry : Bool) (mr : Nat)
    (env : Nat → AttemptOutcome) (body : Json) (s : String)
    (h1 : 1 ≤ attemptBudget retry mr)
    (henv : env 1 = .httpResponse 429 (some s) body) :
    (s ≠ "" → pyIntParse s = none →
      runRequest retry mr env =
        { result := .error (.valueError s)
          attemptsMade := 1, sleeps := [], exitedLoop := false }) ∧
    (s = "" →
      runRequest retry mr env =
        { result := .error (.rateLimit "Daily request limit exceeded" none)
          attemptsMade := 1, sleeps := [], exitedLoop := false }) := by
  constructor
  · intro hsne hparse
    refine runRequest_raiseNow retry mr env _ h1 ?_
    rw [attemptStep, henv]
    simp [tryBody, hsne, hparse, handleExn]
  · intro hse
    subst hse
    exact runRequest_raiseNow retry mr env _ h1 (by rw [attemptStep, henv]; rfl)

/-- A 429 response whose `Retry-After` header is the empty string. -/
def claim5EnvB : Nat → AttemptOutcome := fun _ => .httpResponse 429 (some "") (.obj [])

/-- Witness for C5 (amended) at concrete inputs. -/
theorem claim5_witness :
    runRequest true 3 claim5CexEnv =
      { result := .error (.valueError "soon")
        attemptsMade := 1, sleeps := [], exitedLoop := false } ∧
    runRequest true 3 claim5EnvB =
      { result := .error (.rateLimit "Daily request limit exceeded" none)
        attemptsMade := 1, sleeps := [], exitedLoop := false } :=
  ⟨(claim5_nonint_retry_after true 3 claim5CexEnv (.obj []) "soon" (by decide) rfl).1
      (by decide) rfl,
   (claim5_nonint_retry_after true 3 claim5EnvB (.obj []) "" (by decide) rfl).2 rfl⟩

/-! ### Claim C3 (confirmed) -/

/-- C3: every non-success envelope (non-special status, `success` flag not
truthy) becomes `UnbrowserError(code, message)` with the server-supplied
code and message; when the code is in the do-not-retry set
`{INVALID_REQUEST, INVALID_URL, FORBIDDEN}` it is raised after exactly one
attempt, and otherwise each attempt is retried (with backoff `2^k` after
failing attempt `k`) until the budget is exhausted, when the final
attempt's error is raised.  Attempt `k`'s response is described by status
`stc k`, header `hdrc k`, body fields `fsc k`, error-object fields
`efsc k`, code `cc k` and message `mc k`. -/
theorem claim3_envelope_error_retry_policy
    (retry : Bool) (mr : Nat) (env : Nat → AttemptOutcome)
    (stc : Nat → Nat) (hdrc : Nat → Option String)
    (fsc efsc : Nat → List (String × Json)) (cc mc : Nat → String)
    (h1 : 1 ≤ attemptBudget retry mr)
    (henv : ∀ k, 1 ≤ k → k ≤ attemptBudget retry mr →
      env k = .httpResponse (stc k) (hdrc k) (.obj (fsc k)) ∧
      stc k ≠ 429 ∧ stc k ≠ 401 ∧ stc k ≠ 403 ∧
      ((lookupField (fsc k) "success").getD (.bool false)).truthy = false ∧
      lookupField (fsc k) "error" = some (.obj (efsc k)) ∧
      lookupField (efsc k) "code" = some (.str (cc k)) ∧
      lookupField (efsc k) "message" = some (.str (mc k))) :
    (isNoRetryCode (.str (cc 1)) = true →
      runRequest retry mr env =
        { result := .error (.unbrowser (.str (cc 1)) (.str (mc 1)))
          attemptsMade := 1, sleeps := [], exitedLoop := false }) ∧
    ((∀ k, 1 ≤ k → k ≤ attemptBudget retry mr → isNoRetryCode (.str (cc k)) = false) →
      runRequest retry mr env =
        { result := .error (.unbrowser (.str (cc (attemptBudget retry mr)))
            (.str (mc (attemptBudget retry mr))))
          attemptsMade := attemptBudget retry mr
          sleeps := (List.range' 1 (attemptBudget retry mr - 1)).map (2 ^ ·)
          exitedLoop := false }) := by
  have hstep : ∀ k, 1 ≤ k → k ≤ attemptBudget retry mr →
      attemptStep (env k) = handleExn (.unbrowser (.str (cc k)) (.str (mc k))) := by
    intro k hk1 hk2
    obtain ⟨he, h429, h401, h403, hsucc, herr, hcode, hmsg⟩ := henv k hk1 hk2
    rw [attemptStep, he,
      tryBody_envelope_failure (stc k) (hdrc k) (fsc k) (efsc k) (cc k) (mc k)
        h429 h401 h403 hsucc herr hcode hmsg]
  constructor
  · intro hnr
    refine runRequest_raiseNow retry mr env _ h1 ?_
    rw [hstep 1 (Nat.le_refl _) h1, handleExn]
    simp [hnr]
  · intro hnone
    have hall : ∀ k, 1 ≤ k → k ≤ attemptBudget retry mr →
        attemptStep (env k) = .retryOr (.unbrowser (.str (cc k)) (.str (mc k)))
          (.unbrowser (.str (cc k)) (.str (mc k))) := by
      intro k hk1 hk2
      rw [hstep k hk1 hk2, handleExn]
      simp [hnone k hk1 hk2]
    have := requestLoop_all_retry env (attemptBudget retry mr)
      (fun k => .unbrowser (.str (cc k)) (.str (mc k)))
      (fun k => .unbrowser (.str (cc k)) (.str (mc k)))
      (attemptBudget retry mr) 1 none [] h1 (by omega)
      (fun k hk1 hk2 => hall k hk1 hk2)
    simpa [runRequest] using this

/-- A constant environment serving `success: false` envelopes with the
do-not-retry code `INVALID_URL`. -/
def claim3EnvA : Nat → AttemptOutcome := fun _ =>
  .httpResponse 400 none (.obj [("success", .bool false),
    ("error", .obj [("code", .str "INVALID_URL"), ("message", .str "Invalid URL")])])

/-- A constant environment serving `success: false` envelopes with the
retryable code `FETCH_FAILED`. -/
def claim3EnvB : Nat → AttemptOutcome := fun _ =>
  .httpResponse 500 none (.obj [("success", .bool false),
    ("error", .obj [("code", .str "FETCH_FAILED"), ("message", .str "Failed")])])

/-- Witness for C3 at concrete inputs: an `INVALID_URL` envelope is raised
after one attempt; a `FETCH_FAILED` envelope is retried to the budget of 3
attempts with backoff sleeps `[2, 4]`. -/
theorem claim3_witness :
    runRequest true 3 claim3EnvA =
      { result := .error (.unbrowser (.str "INVALID_URL") (.str "Invalid URL"))
        attemptsMade := 1, sleeps := [], exitedLoop := false } ∧
    runRequest true 3 claim3EnvB =
      { result := .error (.unbrowser (.str "FETCH_FAILED") (.str "Failed"))
        attemptsMade := 3, sleeps := [2, 4], exitedLoop := false } :=
  ⟨(claim3_envelope_error_retry_policy true 3 claim3EnvA
      (fun _ => 400) (fun _ => none)
      (fun _ => [("success", .bool false),
        ("error", .obj [("code", .str "INVALID_URL"), ("message", .str "Invalid URL")])])
      (fun _ => [("code", .str "INVALID_URL"), ("message", .str "Invalid URL")])
      (fun _ => "INVALID_URL") (fun _ => "Invalid URL") (by decide)
      (fun k _ _ => ⟨rfl, by simp, by simp, by simp, rfl, rfl, rfl, rfl⟩)).1 rfl,
   (claim3_envelope_error_retry_policy true 3 claim3EnvB
      (fun _ => 500) (fun _ => none)
      (fun _ => [("success", .bool false),
        ("error", .obj [("code", .str "FETCH_FAILED"), ("message", .str "Failed")])])
      (fun _ => [("code", .str "FETCH_FAILED"), ("message", .str "Failed")])
      (fun _ => "FETCH_FAILED") (fun _ => "Failed") (by decide)
      (fun k _ _ => ⟨rfl, by simp, by simp, by simp, rfl, rfl, rfl, rfl⟩)).2
      (fun k _ _ => rfl)⟩

/-! ### Claim C4 (confirmed) -/

/-- C4: `_request` makes at most `attempts = max_retries if retry else 1`
attempts (so with retries disabled exactly one, and at most the configured
maximum otherwise, whose default is 3); the delays slept are exactly `2^k`
after each failed non-final attempt `k = 1, 2, …` (exponential,
unjittered). -/
theorem claim4_attempt_budget_and_backoff
    (retry : Bool) (mr : Nat) (env : Nat → AttemptOutcome) :
    (runRequest retry mr env).attemptsMade ≤ attemptBudget retry mr ∧
    (retry = false → (runRequest retry mr env).attemptsMade = 1) ∧
    attemptBudget true DEFAULT_MAX_RETRIES = 3 ∧
    (runRequest retry mr env).sleeps =
      (List.range' 1 ((runRequest retry mr env).attemptsMade - 1)).map (2 ^ ·) := by
  by_cases h : 1 ≤ attemptBudget retry mr
  · obtain ⟨hexit, hge, hle, hsl⟩ := requestLoop_inv env (attemptBudget retry mr)
      (attemptBudget retry mr) 1 none [] h (by omega)
    refine ⟨hle, ?_, rfl, by simpa [runRequest] using hsl⟩
    intro hr
    subst hr
    have hb : attemptBudget false mr = 1 := rfl
    show (requestLoop env (attemptBudget false mr) (attemptBudget false mr) 1 none []).attemptsMade = 1
    omega
  · have hb : attemptBudget retry mr = 0 := by omega
    have hr : retry = true := by
      cases retry
      · exact absurd hb (by simp [attemptBudget])
      · rfl
    subst hr
    refine ⟨?_, ?_, rfl, ?_⟩ <;> simp [runRequest, hb, requestLoop]

/-- A concrete success environment for the C4 witness. -/
def claim4Env : Nat → AttemptOutcome := fun _ =>
  .httpResponse 200 none (.obj [("success", .bool true), ("data", .str "ok")])

/-- Witness for C4 at concrete inputs (the inner implication `retry = false
→ …` is discharged at `retry = false`). -/
theorem claim4_witness :
    (runRequest false 5 claim4Env).attemptsMade ≤ attemptBudget false 5 ∧
    (runRequest false 5 claim4Env).attemptsMade = 1 :=
  ⟨(claim4_attempt_budget_and_backoff false 5 claim4Env).1,
   (claim4_attempt_budget_and_backoff false 5 claim4Env).2.1 rfl⟩

/-! ### Claim C7 (confirmed) -/

/-- C7: with at least one attempt budgeted, control never reaches the
post-loop lines 193-195 (`exitedLoop = false`), so the defensive
`UNKNOWN_ERROR` fallback on line 195 is unreachable whenever at least one
attempt is made; and when every budgeted attempt fails retryably (attempt
`k` storing `stf k` as `last_error` and raising `exf k` on exhaustion),
the error raised is the final attempt's — the last observed error — after
exactly `attempts` attempts and full backoff. -/
theorem claim7_last_error_and_unreachable_fallback
    (retry : Bool) (mr : Nat) (env : Nat → AttemptOutcome) (stf exf : Nat → PyExn)
    (h1 : 1 ≤ attemptBudget retry mr) :
    (runRequest retry mr env).exitedLoop = false ∧
    ((∀ k, 1 ≤ k → k ≤ attemptBudget retry mr →
        attemptStep (env k) = .retryOr (stf k) (exf k)) →
      runRequest retry mr env =
        { result := .error (exf (attemptBudget retry mr))
          attemptsMade := attemptBudget retry mr
          sleeps := (List.range' 1 (attemptBudget retry mr - 1)).map (2 ^ ·)
          exitedLoop := false }) := by
  constructor
  · have := (requestLoop_inv env (attemptBudget retry mr)
      (attemptBudget retry mr) 1 none [] h1 (by omega)).1
    simpa [runRequest] using this
  · intro hall
    have := requestLoop_all_retry env (attemptBudget retry mr) stf exf
      (attemptBudget retry mr) 1 none [] h1 (by omega) hall
    simpa [runRequest] using this

/-- A constant all-timeouts environment for the C7 witness. -/
def claim7Env : Nat → AttemptOutcome := fun _ => .timeout "read timed out"

/-- Witness for C7 at concrete inputs: two budgeted attempts, both timing
out; the second attempt's `TIMEOUT`-classified error is raised, one sleep
of `2^1` occurred, and the loop was never exited normally. -/
theorem claim7_witness :
    (runRequest true 2 claim7Env).exitedLoop = false ∧
    runRequest true 2 claim7Env =
      { result := .error (.unbrowser (.str "TIMEOUT") (.str "read timed out"))
        attemptsMade := 2, sleeps := [2], exitedLoop := false } :=
  ⟨(claim7_last_error_and_unreachable_fallback true 2 claim7Env
      (fun _ => .requestsTimeout "read timed out")
      (fun _ => .unbrowser (.str "TIMEOUT") (.str "read timed out")) (by decide)).1,
   (claim7_last_error_and_unreachable_fallback true 2 claim7Env
      (fun _ => .requestsTimeout "read timed out")
      (fun _ => .unbrowser (.str "TIMEOUT") (.str "read timed out")) (by decide)).2
      (fun k _ _ => rfl)⟩

/-! ### Claim C6 (confirmed) -/

/-- C6: construction succeeds, returning the fully constructed client, for
every key starting with `ub_`; for every other key (the empty key
included) it raises a `ValidationError` — and since validation is the
first thing `__init__` does, before the `requests.Session` is created, no
network activity and no partially constructed client can exist. -/
theorem claim6_api_key_validation (key : String) (b : Option String) (t : Nat)
    (r : Bool) (m : Nat) :
    (pyStartsWith key "ub_" = true →
      UnbrowserClient.init key b t r m =
        .ok { api_key := key, base_url := rstripSlash (pyOrDefault b DEFAULT_BASE_URL)
              timeout := t, retry := r, max_retries := m }) ∧
    (pyStartsWith key "ub_" = false →
      ∃ msg, UnbrowserClient.init key b t r m = .error (.validation msg)) := by
  constructor
  · intro h
    have hne : key ≠ "" := by
      intro he
      subst he
      exact absurd h (by decide)
    simp [UnbrowserClient.init, hne, h]
  · intro h
    by_cases he : key = ""
    · exact ⟨"api_key is required", by simp [UnbrowserClient.init, he]⟩
    · exact ⟨"Invalid API key format. Must start with 'ub_'",
        by simp [UnbrowserClient.init, he, h]⟩

/-- Witness for C6 at concrete inputs; the second conjunct exercises the
empty-string `base_url`, which Python's `or` replaces with the default
origin. -/
theorem claim6_witness :
    UnbrowserClient.init "ub_live_test123" none 60 true 3 =
      .ok { api_key := "ub_live_test123"
            base_url := rstripSlash (pyOrDefault none DEFAULT_BASE_URL)
            timeout := 60, retry := true, max_retries := 3 } ∧
    UnbrowserClient.init "ub_live_test123" (some "") 60 true 3 =
      .ok { api_key := "ub_live_test123"
            base_url := rstripSlash (pyOrDefault (some "") DEFAULT_BASE_URL)
            timeout := 60, retry := true, max_retries := 3 } ∧
    (∃ msg, UnbrowserClient.init "invalid_key" none 60 true 3 = .error (.validation msg)) ∧
    (∃ msg, UnbrowserClient.init "" none 60 true 3 = .error (.validation msg)) :=
  ⟨(claim6_api_key_validation "ub_live_test123" none 60 true 3).1 (by decide),
   (claim6_api_key_validation "ub_live_test123" (some "") 60 true 3).1 (by decide),
   (claim6_api_key_validation "invalid_key" none 60 true 3).2 (by decide),
   (claim6_api_key_validation "" none 60 true 3).2 (by decide)⟩

/-! ### Claim C10 (confirmed) -/

/-- C10: a response whose envelope has a truthy `success` flag but no
`data` key makes `_request` return `result.get("data")`, i.e. Python
`None` (`Json.null`), after one attempt, rather than raising; public
operations returning the data directly — `get_usage`, `list_workflows` —
therefore hand `None` to the caller. -/
theorem claim10_missing_data_returns_none
    (c : UnbrowserClient) (env : Nat → AttemptOutcome)
    (st : Nat) (hdr : Option String) (fs : List (String × Json))
    (h1 : 1 ≤ attemptBudget c.retry c.max_retries)
    (henv : env 1 = .httpResponse st hdr (.obj fs))
    (h429 : st ≠ 429) (h401 : st ≠ 401) (h403 : st ≠ 403)
    (hsucc : ((lookupField fs "success").getD (.bool false)).truthy = true)
    (hdata : lookupField fs "data" = none) :
    c.get_usage env =
      { result := .ok .null, attemptsMade := 1, sleeps := [], exitedLoop := false } ∧
    c.list_workflows env =
      { result := .ok .null, attemptsMade := 1, sleeps := [], exitedLoop := false } := by
  have hrun : runRequest c.retry c.max_retries env =
      { result := .ok .null, attemptsMade := 1, sleeps := [], exitedLoop := false } := by
    refine runRequest_success1 c.retry c.max_retries env .null h1 ?_
    rw [attemptStep, henv,
      tryBody_envelope_success st hdr fs h429 h401 h403 hsucc, hdata]
    rfl
  exact ⟨hrun, hrun⟩

/-- A success envelope with no `data` key. -/
def claim10Env : Nat → AttemptOutcome := fun _ =>
  .httpResponse 200 none (.obj [("success", .bool true)])

/-- A concrete client for the C10 witness. -/
def claim10Client : UnbrowserClient :=
  { api_key := "ub_live_test123", base_url := DEFAULT_BASE_URL
    timeout := DEFAULT_TIMEOUT, retry := true, max_retries := DEFAULT_MAX_RETRIES }

/-- Witness for C10 at concrete inputs. -/
theorem claim10_witness :
    claim10Client.get_usage claim10Env =
      { result := .ok .null, attemptsMade := 1, sleeps := [], exitedLoop := false } ∧
    claim10Client.list_workflows claim10Env =
      { result := .ok .null, attemptsMade := 1, sleeps := [], exitedLoop := false } :=
  claim10_missing_data_returns_none claim10Client claim10Env 200 none
    [("success", .bool true)] (by decide) rfl (by decide) (by decide) (by decide) rfl rfl

/-! ### The mapping layer (`types.py`)

Request-side types (`BrowseOptions`, `VerifyOptions`, `SessionData`) are
built by the caller and modelled with their annotated field types.  Python
dataclasses do not check field types at runtime, so response-side parsed
fields carry raw `Json` values except where `from_dict` routes the value
through an `Enum` constructor — the only runtime validation that exists.
`Cookie` appears on both sides (user-built for `SessionData`, parsed in
`BrowseResult.from_dict`) and therefore carries raw `Json` fields; its
Python defaults are `domain=None`, `path="/"`. -/

/-- `ContentType` (`types.py` 12-16) with its `str` values. -/
inductive ContentType where
  | markdown | text | html

/-- The `str` value of a `ContentType` member. -/
def ContentType.value : ContentType → String
  | .markdown => "markdown"
  | .text => "text"
  | .html => "html"

/-- `CostTier` (`types.py` 19-23) with its `str` values. -/
inductive CostTier where
  | intelligence | lightweight | playwright

/-- The `str` value of a `CostTier` member. -/
def CostTier.value : CostTier → String
  | .intelligence => "intelligence"
  | .lightweight => "lightweight"
  | .playwright => "playwright"

/-- `VerificationMode` (`types.py` 26-30). -/
inductive VerificationMode where
  | basic | standard | thorough

/-- The `str` value of a `VerificationMode` member. -/
def VerificationMode.value : VerificationMode → String
  | .basic => "basic"
  | .standard => "standard"
  | .thorough => "thorough"

/-- `Importance` (`types.py` 33-37). -/
inductive Importance where
  | critical | important | optionalStep

/-- The `str` value of an `Importance` member. -/
def Importance.value : Importance → String
  | .critical => "critical"
  | .important => "important"
  | .optionalStep => "optional"

/-- `DomainFamiliarity` (`types.py` 40-45). -/
inductive DomainFamiliarity where
  | high | medium | low | noneLevel

/-- The `str` value of a `DomainFamiliarity` member. -/
def DomainFamiliarity.value : DomainFamiliarity → String
  | .high => "high"
  | .medium => "medium"
  | .low => "low"
  | .noneLevel => "none"

/-- `ConfidenceRating` (`types.py` 48-52). -/
inductive ConfidenceRating where
  | high | medium | low

/-- The `str` value of a `ConfidenceRating` member. -/
def ConfidenceRating.value : ConfidenceRating → String
  | .high => "high"
  | .medium => "medium"
  | .low => "low"

/-- `Cookie` (`types.py` 55-61).  Fields are raw JSON because the dataclass
performs no type validation; Python defaults are `domain=None` (`.null`)
and `path="/"`. -/
structure Cookie where
  name : Json
  value : Json
  domain : Json
  path : Json

/-- `VerifyOptions` (`types.py` 64-68); Python defaults `enabled=True`,
`mode=BASIC`. -/
structure VerifyOptions where
  enabled : Bool
  mode : VerificationMode

/-- `BrowseOptions` (`types.py` 71-81); Python defaults:
`content_type=MARKDOWN`, `scroll_to_load=False`, `include_tables=True`,
the optionals `None`. -/
structure BrowseOptions where
  content_type : ContentType
  wait_for_selector : Option String
  scroll_to_load : Bool
  max_chars : Option Int
  include_tables : Bool
  max_latency_ms : Option Int
  max_cost_tier : Option CostTier
  verify : Option VerifyOptions

/-- `BrowseOptions.to_dict` (`types.py` 83-105).  Each `if self.x:` guard is
Python truthiness: an enum member is truthy iff its `str` value is
non-empty, an `Optional[str]` iff present and non-empty, a dataclass
instance iff present; `max_chars`/`max_latency_ms` use `is not None`;
`include_tables` emits `False` only when unset. -/
def BrowseOptions.to_dict (o : BrowseOptions) : List (String × Json) :=
  (if o.content_type.value ≠ "" then [("contentType", Json.str o.content_type.value)] else []) ++
  (match o.wait_for_selector with
   | some s => if s ≠ "" then [("waitForSelector", Json.str s)] else []
   | none => []) ++
  (if o.scroll_to_load then [("scrollToLoad", Json.bool o.scroll_to_load)] else []) ++
  (match o.max_chars with
   | some n => [("maxChars", Json.num n)]
   | none => []) ++
  (if !o.include_tables then [("includeTables", Json.bool false)] else []) ++
  (match o.max_latency_ms with
   | some n => [("maxLatencyMs", Json.num n)]
   | none => []) ++
  (match o.max_cost_tier with
   | some t => if t.value ≠ "" then [("maxCostTier", Json.str t.value)] else []
   | none => []) ++
  (match o.verify with
   | some v => [("verify", Json.obj [("enabled", Json.bool v.enabled),
       ("mode", Json.str v.mode.value)])]
   | none => [])

/-- `SessionData` (`types.py` 108-112); Python defaults are an empty cookie
list and an empty `local_storage` dict. -/
structure SessionData where
  cookies : List Cookie
  local_storage : List (String × String)

/-- `SessionData.to_dict` (`types.py` 114-124): the `cookies` /
`localStorage` keys are emitted only for non-empty collections, but each
emitted cookie dict always carries all four of `name`, `value`, `domain`,
`path` — including `"domain": None` for a cookie without a domain. -/
def SessionData.to_dict (s : SessionData) : List (String × Json) :=
  (if !s.cookies.isEmpty then
    [("cookies", Json.arr (s.cookies.map (fun c =>
      Json.obj [("name", c.name), ("value", c.value),
                ("domain", c.domain), ("path", c.path)])))]
   else []) ++
  (if !s.local_storage.isEmpty then
    [("localStorage", Json.obj (s.local_storage.map (fun p => (p.1, Json.str p.2))))]
   else [])

mutual

/-- Whether a JSON value contains `null` anywhere (itself, inside an array,
or as an object field value). -/
def Json.hasNull : Json → Bool
  | .null => true
  | .bool _ => false
  | .num _ => false
  | .str _ => false
  | .arr xs => Json.hasNullList xs
  | .obj fs => Json.hasNullFields fs

/-- `Json.hasNull` over the elements of an array. -/
def Json.hasNullList : List Json → Bool
  | [] => false
  | x :: xs => Json.hasNull x || Json.hasNullList xs

/-- `Json.hasNull` over the values of an object's fields. -/
def Json.hasNullFields : List (String × Json) → Bool
  | [] => false
  | (_, v) :: fs => Json.hasNull v || Json.hasNullFields fs

end

/-- `hasNullFields` distributes over concatenation. -/
theorem hasNullFields_append (a b : List (String × Json)) :
    Json.hasNullFields (a ++ b) = (Json.hasNullFields a || Json.hasNullFields b) := by
  induction a with
  | nil => simp [Json.hasNullFields]
  | cons p a ih =>
    obtain ⟨k, v⟩ := p
    simp [Json.hasNullFields, ih, Bool.or_assoc]

/-- A key is absent from an association list iff no binding carries it. -/
theorem lookupField_eq_none_iff (fs : List (String × Json)) (k : String) :
    lookupField fs k = none ↔ ∀ p ∈ fs, p.1 ≠ k := by
  induction fs with
  | nil => simp [lookupField]
  | cons p fs ih =>
    obtain ⟨k', v⟩ := p
    by_cases h : k' = k
    · subst h
      simp [lookupField]
    · simp [lookupField, h, ih]

/-- Every key in a `BrowseOptions.to_dict` payload is one of the seven wire
keys, and the optional ones appear only when their field is set. -/
theorem BrowseOptions.mem_to_dict_key (o : BrowseOptions) (p : String × Json)
    (hp : p ∈ o.to_dict) :
    p.1 = "contentType" ∨
    (p.1 = "waitForSelector" ∧ o.wait_for_selector ≠ none) ∨
    p.1 = "scrollToLoad" ∨
    (p.1 = "maxChars" ∧ o.max_chars ≠ none) ∨
    p.1 = "includeTables" ∨
    (p.1 = "maxLatencyMs" ∧ o.max_latency_ms ≠ none) ∨
    (p.1 = "maxCostTier" ∧ o.max_cost_tier ≠ none) ∨
    (p.1 = "verify" ∧ o.verify ≠ none) := by
  obtain ⟨ct, ws, sl, mc, it, ml, mct, vf⟩ := o
  simp only [BrowseOptions.to_dict, List.mem_append] at hp
  rcases hp with ((((((h | h) | h) | h) | h) | h) | h) | h
  · split at h <;> simp_all
  · rcases ws with _ | w
    · simp at h
    · split at h <;> simp_all
  · split at h <;> simp_all
  · rcases mc with _ | n <;> simp_all
  · split at h <;> simp_all
  · rcases ml with _ | n <;> simp_all
  · rcases mct with _ | t
    · simp at h
    · split at h <;> simp_all
  · rcases vf with _ | v <;> simp_all

/-- `BrowseOptions.to_dict` payloads never contain a null value: every
emitted chunk is a string, integer, boolean, or the two-field `verify`
object. -/
theorem BrowseOptions.to_dict_hasNull (o : BrowseOptions) :
    Json.hasNullFields o.to_dict = false := by
  obtain ⟨ct, ws, sl, mc, it, ml, mct, vf⟩ := o
  simp only [BrowseOptions.to_dict, hasNullFields_append]
  have hA : Json.hasNullFields
      (if ct.value ≠ "" then [("contentType", Json.str ct.value)] else []) = false := by
    split <;> rfl
  have hB : Json.hasNullFields
      (match ws with
       | some s => if s ≠ "" then [("waitForSelector", Json.str s)] else []
       | none => []) = false := by
    rcases ws with _ | w
    · rfl
    · split <;> first | rfl | (split <;> rfl)
  have hC : Json.hasNullFields
      (if sl then [("scrollToLoad", Json.bool sl)] else []) = false := by
    split <;> rfl
  have hD : Json.hasNullFields
      (match mc with
       | some n => [("maxChars", Json.num n)]
       | none => []) = false := by
    rcases mc with _ | n <;> rfl
  have hE : Json.hasNullFields
      (if !it then [("includeTables", Json.bool false)] else []) = false := by
    split <;> rfl
  have hF : Json.hasNullFields
      (match ml with
       | some n => [("maxLatencyMs", Json.num n)]
       | none => []) = false := by
    rcases ml with _ | n <;> rfl
  have hG : Json.hasNullFields
      (match mct with
       | some t => if t.value ≠ "" then [("maxCostTier", Json.str t.value)] else []
       | none => []) = false := by
    rcases mct with _ | t
    · rfl
    · split <;> first | rfl | (split <;> rfl)
  have hH : Json.hasNullFields
      (match vf with
       | some v => [("verify", Json.obj [("enabled", Json.bool v.enabled),
           ("mode", Json.str v.mode.value)])]
       | none => []) = false := by
    rcases vf with _ | v <;> rfl
  rw [hA, hB, hC, hD, hE, hF, hG, hH]
  rfl

/-! ### Claim C8 (corrected) -/

/-- A session holding one cookie constructed without a domain (Python
`Cookie(name="session_id", value="abc123")`, hence `domain=None` and
`path="/"`). -/
def claim8CexSession : SessionData :=
  { cookies := [{ name := .str "session_id", value := .str "abc123"
                  domain := .null, path := .str "/" }]
    local_storage := [] }

/-- C8 counterexample: the claim says no key is ever serialized with a null
value; but a cookie without a domain is serialized with an explicit
`"domain": None` entry, so the wire payload of `SessionData.to_dict`
contains a null value. -/
theorem claim8_counterexample :
    Json.hasNullFields claim8CexSession.to_dict = true ∧
    lookupField claim8CexSession.to_dict "cookies" =
      some (.arr [.obj [("name", .str "session_id"), ("value", .str "abc123"),
        ("domain", .null), ("path", .str "/")]]) :=
  ⟨rfl, rfl⟩

/-- C8 (amended): `BrowseOptions.to_dict` omits every unset optional field
and never serializes a null value; `SessionData.to_dict` omits the
`cookies` / `localStorage` keys for empty collections, but each serialized
cookie object always carries all four keys `name`, `value`, `domain`,
`path`, so the payload is null-free only when every cookie's four field
values are themselves null-free (in particular `domain` must be set). -/
theorem claim8_present_fields_only (o : BrowseOptions) (s : SessionData) :
    (Json.hasNullFields o.to_dict = false ∧
     (o.wait_for_selector = none → lookupField o.to_dict "waitForSelector" = none) ∧
     (o.max_chars = none → lookupField o.to_dict "maxChars" = none) ∧
     (o.max_latency_ms = none → lookupField o.to_dict "maxLatencyMs" = none) ∧
     (o.max_cost_tier = none → lookupField o.to_dict "maxCostTier" = none) ∧
     (o.verify = none → lookupField o.to_dict "verify" = none)) ∧
    ((s.cookies = [] → lookupField s.to_dict "cookies" = none) ∧
     (s.local_storage = [] → lookupField s.to_dict "localStorage" = none) ∧
     ((∀ c ∈ s.cookies, Json.hasNull c.name = false ∧ Json.hasNull c.value = false ∧
        Json.hasNull c.domain = false ∧ Json.hasNull c.path = false) →
       Json.hasNullFields s.to_dict = false)) := by
  refine ⟨⟨BrowseOptions.to_dict_hasNull o, ?_, ?_, ?_, ?_, ?_⟩, ?_, ?_, ?_⟩
  · intro h
    rw [lookupField_eq_none_iff]
    intro p hp
    rcases BrowseOptions.mem_to_dict_key o p hp with
      h1 | ⟨h1, h2⟩ | h1 | ⟨h1, h2⟩ | h1 | ⟨h1, h2⟩ | ⟨h1, h2⟩ | ⟨h1, h2⟩ <;> simp_all
  · intro h
    rw [lookupField_eq_none_iff]
    intro p hp
    rcases BrowseOptions.mem_to_dict_key o p hp with
      h1 | ⟨h1, h2⟩ | h1 | ⟨h1, h2⟩ | h1 | ⟨h1, h2⟩ | ⟨h1, h2⟩ | ⟨h1, h2⟩ <;> simp_all
  · intro h
    rw [lookupField_eq_none_iff]
    intro p hp
    rcases BrowseOptions.mem_to_dict_key o p hp with
      h1 | ⟨h1, h2⟩ | h1 | ⟨h1, h2⟩ | h1 | ⟨h1, h2⟩ | ⟨h1, h2⟩ | ⟨h1, h2⟩ <;> simp_all
  · intro h
    rw [lookupField_eq_none_iff]
    intro p hp
    rcases BrowseOptions.mem_to_dict_key o p hp with
      h1 | ⟨h1, h2⟩ | h1 | ⟨h1, h2⟩ | h1 | ⟨h1, h2⟩ | ⟨h1, h2⟩ | ⟨h1, h2⟩ <;> simp_all
  · intro h
    rw [lookupField_eq_none_iff]
    intro p hp
    rcases BrowseOptions.mem_to_dict_key o p hp with
      h1 | ⟨h1, h2⟩ | h1 | ⟨h1, h2⟩ | h1 | ⟨h1, h2⟩ | ⟨h1, h2⟩ | ⟨h1, h2⟩ <;> simp_all
  · intro h
    obtain ⟨cs, ls⟩ := s
    simp only at h
    subst h
    rw [lookupField_eq_none_iff]
    intro p hp
    simp only [SessionData.to_dict, List.mem_append, List.map_nil] at hp
    rcases hp with h | h
    · simp at h
    · split at h <;> simp_all
  · intro h
    obtain ⟨cs, ls⟩ := s
    simp only at h
    subst h
    rw [lookupField_eq_none_iff]
    intro p hp
    simp only [SessionData.to_dict, List.mem_append, List.map_nil] at hp
    rcases hp with h | h
    · split at h <;> simp_all
    · simp at h
  · intro h
    obtain ⟨cs, ls⟩ := s
    simp only [SessionData.to_dict, hasNullFields_append]
    have hcs : Json.hasNullList (cs.map (fun c =>
        Json.obj [("name", c.name), ("value", c.value),
                  ("domain", c.domain), ("path", c.path)])) = false := by
      induction cs with
      | nil => rfl
      | cons c cs ih =>
        obtain ⟨h1, h2, h3, h4⟩ := h c (by simp)
        simp only [List.map_cons, Json.hasNullList, Json.hasNull, Json.hasNullFields,
          h1, h2, h3, h4, Bool.or_self, Bool.false_or]
        exact ih (fun c' hc' => h c' (by simp [hc']))
    have hls : Json.hasNullFields (ls.map (fun p => (p.1, Json.str p.2))) = false := by
      induction ls with
      | nil => rfl
      | cons p ls ih =>
        simp only [List.map_cons, Json.hasNullFields, Json.hasNull, Bool.false_or]
        exact ih h
    have h1 : Json.hasNullFields (if !cs.isEmpty then
        [("cookies", Json.arr (cs.map (fun c =>
          Json.obj [("name", c.name), ("value", c.value),
                    ("domain", c.domain), ("path", c.path)])))] else []) = false := by
      split
      · simp [Json.hasNullFields, Json.hasNull, hcs]
      · rfl
    have h2 : Json.hasNullFields (if !ls.isEmpty then
        [("localStorage", Json.obj (ls.map (fun p => (p.1, Json.str p.2))))] else []) = false := by
      split
      · simp [Json.hasNullFields, Json.hasNull, hls]
      · rfl
    rw [h1, h2]
    rfl

/-- Concrete options with every optional field unset, for the C8 witness. -/
def claim8Options : BrowseOptions :=
  { content_type := .markdown, wait_for_selector := none, scroll_to_load := false
    max_chars := none, include_tables := true, max_latency_ms := none
    max_cost_tier := none, verify := none }

/-- A concrete session with one fully specified cookie and no
local storage, for the C8 witness. -/
def claim8Session : SessionData :=
  { cookies := [{ name := .str "session_id", value := .str "abc123"
                  domain := .str "example.com", path := .str "/" }]
    local_storage := [] }

/-- Witness for C8 (amended) at concrete inputs. -/
theorem claim8_witness :
    Json.hasNullFields claim8Options.to_dict = false ∧
    lookupField claim8Options.to_dict "waitForSelector" = none ∧
    lookupField claim8Options.to_dict "maxChars" = none ∧
    lookupField claim8Session.to_dict "localStorage" = none ∧
    Json.hasNullFields claim8Session.to_dict = false :=
  ⟨(claim8_present_fields_only claim8Options claim8Session).1.1,
   (claim8_present_fields_only claim8Options claim8Session).1.2.1 rfl,
   (claim8_present_fields_only claim8Options claim8Session).1.2.2.1 rfl,
   (claim8_present_fields_only claim8Options claim8Session).2.2.1 rfl,
   (claim8_present_fields_only claim8Options claim8Session).2.2.2
     (by
       intro c hc
       simp only [claim8Session, List.mem_singleton] at hc
       subst hc
       exact ⟨rfl, rfl, rfl, rfl⟩)⟩

/-! ### Response parsing (`from_dict`, `types.py`) -/

/-- Python `data[k]` on a parsed JSON value: `KeyError` when the key is
absent, `TypeError` when the receiver is not a dict. -/
def dictGet (data : Json) (k : String) : Except PyExn Json :=
  match data with
  | .obj fs =>
    match lookupField fs k with
    | some v => .ok v
    | none => .error (.keyError k)
  | _ => .error (.typeError k)

/-- Python `data.get(k, dflt)`: the default when the key is absent,
`AttributeError` when the receiver is not a dict.  An absent key and a
JSON `null` value both yield Python `None` (`Json.null`) when the default
is `null`. -/
def dictGetD (data : Json) (k : String) (dflt : Json) : Except PyExn Json :=
  match data with
  | .obj fs => .ok ((lookupField fs k).getD dflt)
  | _ => .error (.attributeError k)

/-- Iterating `for x in v` over a parsed JSON value inside a list
comprehension whose body subscripts `x`: only a JSON array yields the
elements; any other (truthy) value ends in a `TypeError` once iterated or
subscripted. -/
def asIterList : Json → Except PyExn (List Json)
  | .arr xs => .ok xs
  | _ => .error (.typeError "not iterable over dicts")

/-- `CostTier(v)`: Python `Enum` construction validates `v` against the
closed set of member values and raises `ValueError` otherwise
(`types.py` 19-23). -/
def CostTier.fromJson : Json → Except PyExn CostTier
  | .str s =>
    if s = "intelligence" then .ok .intelligence
    else if s = "lightweight" then .ok .lightweight
    else if s = "playwright" then .ok .playwright
    else .error (.valueError s)
  | _ => .error (.valueError "is not a valid CostTier")

/-- `ConfidenceRating(v)` (`types.py` 48-52). -/
def ConfidenceRating.fromJson : Json → Except PyExn ConfidenceRating
  | .str s =>
    if s = "high" then .ok .high
    else if s = "medium" then .ok .medium
    else if s = "low" then .ok .low
    else .error (.valueError s)
  | _ => .error (.valueError "is not a valid ConfidenceRating")

/-- `Importance(v)` (`types.py` 33-37). -/
def Importance.fromJson : Json → Except PyExn Importance
  | .str s =>
    if s = "critical" then .ok .critical
    else if s = "important" then .ok .important
    else if s = "optional" then .ok .optionalStep
    else .error (.valueError s)
  | _ => .error (.valueError "is not a valid Importance")

/-- `DomainFamiliarity(v)` (`types.py` 40-45). -/
def DomainFamiliarity.fromJson : Json → Except PyExn DomainFamiliarity
  | .str s =>
    if s = "high" then .ok .high
    else if s = "medium" then .ok .medium
    else if s = "low" then .ok .low
    else if s = "none" then .ok .noneLevel
    else .error (.valueError s)
  | _ => .error (.valueError "is not a valid DomainFamiliarity")

/-- `ExecutionStep` (`types.py` 308-317).  Only `tier` and `confidence` are
routed through `Enum` constructors; the remaining fields are stored
unvalidated. -/
structure ExecutionStep where
  order : Json
  action : Json
  description : Json
  tier : CostTier
  expected_duration : Json
  confidence : ConfidenceRating
  reason : Json

/-- `ExecutionStep.from_dict` (`types.py` 319-330), keyword arguments
evaluated in source order. -/
def ExecutionStep.from_dict (data : Json) : Except PyExn ExecutionStep := do
  let order ← dictGet data "order"
  let action ← dictGet data "action"
  let description ← dictGet data "description"
  let tierJ ← dictGet data "tier"
  let tier ← CostTier.fromJson tierJ
  let expected_duration ← dictGet data "expectedDuration"
  let confJ ← dictGet data "confidence"
  let confidence ← ConfidenceRating.fromJson confJ
  let reason ← dictGetD data "reason" .null
  pure { order := order, action := action, description := description, tier := tier
         expected_duration := expected_duration, confidence := confidence, reason := reason }

/-- `WorkflowStep` (`types.py` 477-488).  Only `importance` (and `tier`,
when present and truthy) are validated. -/
structure WorkflowStep where
  step_number : Json
  action : Json
  description : Json
  importance : Importance
  success : Json
  url : Json
  user_annotation : Json
  tier : Option CostTier
  duration : Json

/-- `WorkflowStep.from_dict` (`types.py` 490-503): note
`CostTier(data["tier"]) if data.get("tier") else None` — a falsy `tier`
value (absent, null, empty string, zero) silently becomes `None`, a truthy
one is validated. -/
def WorkflowStep.from_dict (data : Json) : Except PyExn WorkflowStep := do
  let step_number ← dictGet data "stepNumber"
  let action ← dictGet data "action"
  let description ← dictGet data "description"
  let impJ ← dictGet data "importance"
  let importance ← Importance.fromJson impJ
  let success ← dictGet data "success"
  let url ← dictGetD data "url" .null
  let ua ← dictGetD data "userAnnotation" .null
  let tcond ← dictGetD data "tier" .null
  let tier ← if tcond.truthy then do
      let tierJ ← dictGet data "tier"
      let t ← CostTier.fromJson tierJ
      pure (some t)
    else pure (none : Option CostTier)
  let duration ← dictGetD data "duration" .null
  pure { step_number := step_number, action := action, description := description
         importance := importance, success := success, url := url
         user_annotation := ua, tier := tier, duration := duration }

/-- `ConfidenceFactors` (`types.py` 375-385).  Only `domain_familiarity` is
validated. -/
structure ConfidenceFactors where
  has_learned_patterns : Json
  domain_familiarity : DomainFamiliarity
  api_discovered : Json
  requires_auth : Json
  bot_detection_likely : Json
  skills_available : Json
  pattern_count : Json
  pattern_success_rate : Json

/-- `ConfidenceFactors.from_dict` (`types.py` 387-399). -/
def ConfidenceFactors.from_dict (data : Json) : Except PyExn ConfidenceFactors := do
  let hlp ← dictGet data "hasLearnedPatterns"
  let dfJ ← dictGet data "domainFamiliarity"
  let df ← DomainFamiliarity.fromJson dfJ
  let apid ← dictGet data "apiDiscovered"
  let ra ← dictGet data "requiresAuth"
  let bdl ← dictGet data "botDetectionLikely"
  let sa ← dictGet data "skillsAvailable"
  let pc ← dictGet data "patternCount"
  let psr ← dictGet data "patternSuccessRate"
  pure { has_learned_patterns := hlp, domain_familiarity := df, api_discovered := apid
         requires_auth := ra, bot_detection_likely := bdl, skills_available := sa
         pattern_count := pc, pattern_success_rate := psr }

/-- `ContentResult` (`types.py` 127-132); fields stored unvalidated. -/
structure ContentResult where
  markdown : Json
  text : Json
  html : Json

/-- `BrowseMetadata` (`types.py` 150-155); fields stored unvalidated —
including `tier`, a plain `str` here. -/
structure BrowseMetadata where
  load_time : Json
  tier : Json
  tiers_attempted : Json

/-- `TableData` (`types.py` 135-139). -/
structure TableData where
  headers : Json
  rows : Json

/-- `DiscoveredApi` (`types.py` 142-147): `content_type` is annotated as a
plain `str`, not `ContentType`, and is stored without validation. -/
structure DiscoveredApi where
  url : Json
  method : Json
  content_type : Json

/-- `VerificationResult` (`types.py` 158-165). -/
structure VerificationResult where
  passed : Json
  confidence : Json
  checks_run : Json
  errors : Json
  warnings : Json

/-- `BrowseResult` (`types.py` 168-179). -/
structure BrowseResult where
  url : Json
  final_url : Json
  title : Json
  content : ContentResult
  metadata : BrowseMetadata
  tables : Option (List TableData)
  discovered_apis : Option (List DiscoveredApi)
  new_cookies : Option (List Cookie)
  verification : Option VerificationResult

/-- `BrowseResult.from_dict` (`types.py` 181-241), statements in source
order: content, metadata, the four optional sections guarded by
`if data.get(...)`: truthiness, then the final keyword arguments `url`,
`finalUrl`, `title`.  No enumerated validation happens anywhere in this
parse — in particular each discovered API's `contentType` is stored
verbatim. -/
def BrowseResult.from_dict (data : Json) : Except PyExn BrowseResult := do
  let contentJ ← dictGet data "content"
  let markdown ← dictGet contentJ "markdown"
  let text ← dictGet contentJ "text"
  let html ← dictGetD contentJ "html" .null
  let metadataJ ← dictGet data "metadata"
  let load_time ← dictGet metadataJ "loadTime"
  let mtier ← dictGet metadataJ "tier"
  let tiers_attempted ← dictGet metadataJ "tiersAttempted"
  let tablesJ ← dictGetD data "tables" .null
  let tables ← if tablesJ.truthy then do
      let ts ← asIterList tablesJ
      let parsed ← ts.mapM (fun t => do
        let headers ← dictGet t "headers"
        let rows ← dictGet t "rows"
        pure (TableData.mk headers rows))
      pure (some parsed)
    else pure (none : Option (List TableData))
  let apisJ ← dictGetD data "discoveredApis" .null
  let discovered_apis ← if apisJ.truthy then do
      let es ← asIterList apisJ
      let parsed ← es.mapM (fun a => do
        let url ← dictGet a "url"
        let method ← dictGet a "method"
        let content_type ← dictGet a "contentType"
        pure (DiscoveredApi.mk url method content_type))
      pure (some parsed)
    else pure (none : Option (List DiscoveredApi))
  let cookiesJ ← dictGetD data "newCookies" .null
  let new_cookies ← if cookiesJ.truthy then do
      let cjs ← asIterList cookiesJ
      let parsed ← cjs.mapM (fun c => do
        let name ← dictGet c "name"
        let value ← dictGet c "value"
        let domain ← dictGetD c "domain" .null
        let path ← dictGetD c "path" (.str "/")
        pure (Cookie.mk name value domain path))
      pure (some parsed)
    else pure (none : Option (List Cookie))
  let verJ ← dictGetD data "verification" .null
  let verification ← if verJ.truthy then do
      let passed ← dictGet verJ "passed"
      let confidence ← dictGet verJ "confidence"
      let checks_run ← dictGet verJ "checksRun"
      let errors ← dictGetD verJ "errors" .null
      let warnings ← dictGetD verJ "warnings" .null
      pure (some (VerificationResult.mk passed confidence checks_run errors warnings))
    else pure (none : Option VerificationResult)
  let url ← dictGet data "url"
  let final_url ← dictGet data "finalUrl"
  let title ← dictGet data "title"
  pure { url := url, final_url := final_url, title := title
         content := ContentResult.mk markdown text html
         metadata := BrowseMetadata.mk load_time mtier tiers_attempted
         tables := tables, discovered_apis := discovered_apis
         new_cookies := new_cookies, verification := verification }

/-- Splitting a successful `Except` bind. -/
theorem exceptBindOk {α β : Type} {x : Except PyExn α} {f : α → Except PyExn β} {b : β}
    (h : x >>= f = .ok b) : ∃ a, x = .ok a ∧ f a = .ok b := by
  cases x with
  | error e => exact Except.noConfusion h
  | ok a => exact ⟨a, rfl, h⟩

/-- A successful `data[k]` means `data` is a dict binding `k`. -/
theorem dictGet_ok {d : Json} {k : String} {v : Json} (h : dictGet d k = .ok v) :
    ∃ fs, d = .obj fs ∧ lookupField fs k = some v := by
  cases d
  case obj fs =>
    refine ⟨fs, rfl, ?_⟩
    have h' : (match lookupField fs k with
      | some w => Except.ok w
      | none => Except.error (PyExn.keyError k)) = Except.ok v := h
    cases hlk : lookupField fs k with
    | none => rw [hlk] at h'; exact Except.noConfusion h'
    | some w => rw [hlk] at h'; injection h' with h''; rw [h'']
  all_goals exact Except.noConfusion h

/-- `dictGet` on a dict succeeds exactly on a bound key. -/
theorem dictGet_obj_ok {fs : List (String × Json)} {k : String} {v : Json}
    (h : dictGet (.obj fs) k = .ok v) : lookupField fs k = some v := by
  obtain ⟨fs', hfs', hl⟩ := dictGet_ok h
  injection hfs' with hfs'
  rw [hfs']
  exact hl

/-- `CostTier(v)` succeeds only on the member values: the accepted value is
exactly the member's `str` value. -/
theorem costTier_fromJson_values (v : Json) (t : CostTier)
    (h : CostTier.fromJson v = .ok t) : v = .str t.value := by
  cases v
  case str s =>
    simp only [CostTier.fromJson] at h
    split_ifs at h with h1 h2 h3 <;>
      first
        | (injection h with h'; subst h'; simp_all [CostTier.value])
        | exact Except.noConfusion h
  all_goals exact Except.noConfusion h

/-- `ConfidenceRating(v)` succeeds only on the member values. -/
theorem confidenceRating_fromJson_values (v : Json) (r : ConfidenceRating)
    (h : ConfidenceRating.fromJson v = .ok r) : v = .str r.value := by
  cases v
  case str s =>
    simp only [ConfidenceRating.fromJson] at h
    split_ifs at h with h1 h2 h3 <;>
      first
        | (injection h with h'; subst h'; simp_all [ConfidenceRating.value])
        | exact Except.noConfusion h
  all_goals exact Except.noConfusion h

/-- `Importance(v)` succeeds only on the member values. -/
theorem importance_fromJson_values (v : Json) (i : Importance)
    (h : Importance.fromJson v = .ok i) : v = .str i.value := by
  cases v
  case str s =>
    simp only [Importance.fromJson] at h
    split_ifs at h with h1 h2 h3 <;>
      first
        | (injection h with h'; subst h'; simp_all [Importance.value])
        | exact Except.noConfusion h
  all_goals exact Except.noConfusion h

/-- `DomainFamiliarity(v)` succeeds only on the member values. -/
theorem domainFamiliarity_fromJson_values (v : Json) (f : DomainFamiliarity)
    (h : DomainFamiliarity.fromJson v = .ok f) : v = .str f.value := by
  cases v
  case str s =>
    simp only [DomainFamiliarity.fromJson] at h
    split_ifs at h with h1 h2 h3 h4 <;>
      first
        | (injection h with h'; subst h'; simp_all [DomainFamiliarity.value])
        | exact Except.noConfusion h
  all_goals exact Except.noConfusion h

/-! ### Claim C9 (corrected) -/

/-- A complete, valid browse payload whose single discovered API carries the
out-of-set content type `"banana"`. -/
def claim9CexPayload : Json := .obj [
  ("content", .obj [("markdown", .str "# Example"), ("text", .str "Example")]),
  ("metadata", .obj [("loadTime", .num 150), ("tier", .str "intelligence"),
    ("tiersAttempted", .arr [.str "intelligence"])]),
  ("discoveredApis", .arr [.obj [("url", .str "https://api.example.com/items"),
    ("method", .str "GET"), ("contentType", .str "banana")]]),
  ("url", .str "https://example.com"),
  ("finalUrl", .str "https://example.com/"),
  ("title", .str "Example Domain")]

/-- The parse result of `claim9CexPayload`. -/
def claim9CexResult : BrowseResult :=
  { url := .str "https://example.com", final_url := .str "https://example.com/"
    title := .str "Example Domain"
    content := { markdown := .str "# Example", text := .str "Example", html := .null }
    metadata := { load_time := .num 150, tier := .str "intelligence"
                  tiers_attempted := .arr [.str "intelligence"] }
    tables := none
    discovered_apis := some [{ url := .str "https://api.example.com/items",
                               method := .str "GET", content_type := .str "banana" }]
    new_cookies := none, verification := none }

/-- C9 counterexample: the claim lists "content type" among the enumerated
string fields validated against a closed set at parse time; but
`DiscoveredApi.content_type` is a plain `str` and `BrowseResult.from_dict`
stores it verbatim, so a payload whose discovered API carries the value
`"banana"` — outside the `ContentType` set `{markdown, text, html}` —
parses successfully instead of failing. -/
theorem claim9_counterexample :
    BrowseResult.from_dict claim9CexPayload = .ok claim9CexResult ∧
    claim9CexResult.discovered_apis =
      some [{ url := .str "https://api.example.com/items", method := .str "GET",
              content_type := .str "banana" }] ∧
    "banana" ≠ ContentType.markdown.value ∧
    "banana" ≠ ContentType.text.value ∧
    "banana" ≠ ContentType.html.value :=
  ⟨rfl, rfl, by decide, by decide, by decide⟩

/-- C9 (amended): the enumerated fields cost tier, confidence rating,
importance and domain familiarity *are* validated against their closed
sets — each `Enum` constructor succeeds exactly on a member's string value
— and a successfully parsed `ExecutionStep` / `WorkflowStep` /
`ConfidenceFactors` implies every required key was present (so a payload
missing a required key raises a `KeyError` rather than yielding a partial
object); the discovered-API content type, however, is a plain string
stored without validation (see the counterexample). -/
theorem claim9_enum_validation :
    (∀ v t, CostTier.fromJson v = .ok t → v = .str t.value) ∧
    (∀ v r, ConfidenceRating.fromJson v = .ok r → v = .str r.value) ∧
    (∀ v i, Importance.fromJson v = .ok i → v = .str i.value) ∧
    (∀ v f, DomainFamiliarity.fromJson v = .ok f → v = .str f.value) ∧
    (∀ d es, ExecutionStep.from_dict d = .ok es → ∃ fs, d = .obj fs ∧
      lookupField fs "tier" = some (.str es.tier.value) ∧
      lookupField fs "confidence" = some (.str es.confidence.value) ∧
      (lookupField fs "order").isSome = true ∧
      (lookupField fs "action").isSome = true ∧
      (lookupField fs "description").isSome = true ∧
      (lookupField fs "expectedDuration").isSome = true) ∧
    (∀ d ws, WorkflowStep.from_dict d = .ok ws → ∃ fs, d = .obj fs ∧
      lookupField fs "importance" = some (.str ws.importance.value) ∧
      (lookupField fs "stepNumber").isSome = true ∧
      (lookupField fs "action").isSome = true ∧
      (lookupField fs "description").isSome = true ∧
      (lookupField fs "success").isSome = true) ∧
    (∀ d cf, ConfidenceFactors.from_dict d = .ok cf → ∃ fs, d = .obj fs ∧
      lookupField fs "domainFamiliarity" = some (.str cf.domain_familiarity.value)) := by
  refine ⟨costTier_fromJson_values, confidenceRating_fromJson_values, importance_fromJson_values,
    domainFamiliarity_fromJson_values, ?_, ?_, ?_⟩
  · intro d es h
    unfold ExecutionStep.from_dict at h
    obtain ⟨order, ho, h⟩ := exceptBindOk h
    obtain ⟨action, ha, h⟩ := exceptBindOk h
    obtain ⟨description, hde, h⟩ := exceptBindOk h
    obtain ⟨tierJ, htJ, h⟩ := exceptBindOk h
    obtain ⟨tier, ht, h⟩ := exceptBindOk h
    obtain ⟨expected, hex, h⟩ := exceptBindOk h
    obtain ⟨confJ, hcJ, h⟩ := exceptBindOk h
    obtain ⟨confidence, hc, h⟩ := exceptBindOk h
    obtain ⟨reason, hr, h⟩ := exceptBindOk h
    injection h with h
    subst h
    obtain ⟨fs, rfl, hofs⟩ := dictGet_ok ho
    refine ⟨fs, rfl, ?_, ?_, ?_, ?_, ?_, ?_⟩
    · rw [← costTier_fromJson_values tierJ tier ht]
      exact dictGet_obj_ok htJ
    · rw [← confidenceRating_fromJson_values confJ confidence hc]
      exact dictGet_obj_ok hcJ
    · rw [hofs]; rfl
    · rw [dictGet_obj_ok ha]; rfl
    · rw [dictGet_obj_ok hde]; rfl
    · rw [dictGet_obj_ok hex]; rfl
  · intro d ws h
    unfold WorkflowStep.from_dict at h
    obtain ⟨step_number, hs, h⟩ := exceptBindOk h
    obtain ⟨action, ha, h⟩ := exceptBindOk h
    obtain ⟨description, hde, h⟩ := exceptBindOk h
    obtain ⟨impJ, hiJ, h⟩ := exceptBindOk h
    obtain ⟨importance, hi, h⟩ := exceptBindOk h
    obtain ⟨success, hsu, h⟩ := exceptBindOk h
    obtain ⟨url, hu, h⟩ := exceptBindOk h
    obtain ⟨ua, hua, h⟩ := exceptBindOk h
    obtain ⟨tcond, htc, h⟩ := exceptBindOk h
    by_cases htr : tcond.truthy = true
    · simp only [if_pos htr] at h
      obtain ⟨tierJ, htJ2, h⟩ := exceptBindOk h
      obtain ⟨t, ht2, h⟩ := exceptBindOk h
      obtain ⟨y, hy, h⟩ := exceptBindOk h
      obtain ⟨duration, hdu, h⟩ := exceptBindOk h
      injection h with h
      subst h
      obtain ⟨fs, rfl, hofs⟩ := dictGet_ok hs
      refine ⟨fs, rfl, ?_, ?_, ?_, ?_, ?_⟩
      · rw [← importance_fromJson_values impJ importance hi]
        exact dictGet_obj_ok hiJ
      · rw [hofs]; rfl
      · rw [dictGet_obj_ok ha]; rfl
      · rw [dictGet_obj_ok hde]; rfl
      · rw [dictGet_obj_ok hsu]; rfl
    · simp only [if_neg htr] at h
      obtain ⟨y, hy, h⟩ := exceptBindOk h
      obtain ⟨duration, hdu, h⟩ := exceptBindOk h
      injection h with h
      subst h
      obtain ⟨fs, rfl, hofs⟩ := dictGet_ok hs
      refine ⟨fs, rfl, ?_, ?_, ?_, ?_, ?_⟩
      · rw [← importance_fromJson_values impJ importance hi]
        exact dictGet_obj_ok hiJ
      · rw [hofs]; rfl
      · rw [dictGet_obj_ok ha]; rfl
      · rw [dictGet_obj_ok hde]; rfl
      · rw [dictGet_obj_ok hsu]; rfl
  · intro d cf h
    unfold ConfidenceFactors.from_dict at h
    obtain ⟨hlp, hh, h⟩ := exceptBindOk h
    obtain ⟨dfJ, hdJ, h⟩ := exceptBindOk h
    obtain ⟨df, hdf, h⟩ := exceptBindOk h
    obtain ⟨apid, h1, h⟩ := exceptBindOk h
    obtain ⟨ra, h2, h⟩ := exceptBindOk h
    obtain ⟨bdl, h3, h⟩ := exceptBindOk h
    obtain ⟨sa, h4, h⟩ := exceptBindOk h
    obtain ⟨pc, h5, h⟩ := exceptBindOk h
    obtain ⟨psr, h6, h⟩ := exceptBindOk h
    injection h with h
    subst h
    obtain ⟨fs, rfl, hofs⟩ := dictGet_ok hh
    refine ⟨fs, rfl, ?_⟩
    rw [← domainFamiliarity_fromJson_values dfJ df hdf]
    exact dictGet_obj_ok hdJ

/-- A valid execution-step payload. -/
def claim9StepPayload : Json := .obj [("order", .num 1), ("action", .str "fetch"),
  ("description", .str "Fetch the page"), ("tier", .str "lightweight"),
  ("expectedDuration", .num 120), ("confidence", .str "high")]

/-- Witness for C9 (amended) at concrete inputs. -/
theorem claim9_witness :
    (∃ fs, claim9StepPayload = .obj fs ∧
      lookupField fs "tier" = some (.str CostTier.lightweight.value) ∧
      lookupField fs "confidence" = some (.str ConfidenceRating.high.value) ∧
      (lookupField fs "order").isSome = true ∧
      (lookupField fs "action").isSome = true ∧
      (lookupField fs "description").isSome = true ∧
      (lookupField fs "expectedDuration").isSome = true) ∧
    Json.str "lightweight" = .str CostTier.lightweight.value :=
  ⟨claim9_enum_validation.2.2.2.2.1 claim9StepPayload
    { order := .num 1, action := .str "fetch", description := .str "Fetch the page"
      tier := .lightweight, expected_duration := .num 120
      confidence := .high, reason := .null } rfl,
   claim9_enum_validation.1 (.str "lightweight") .lightweight rfl⟩

end Unbrowser
